import Mathlib

/-!
A verification development for the `ui_app` package of Open-AutoGLM-GUI
(`agent_wrapper.py` and `device_manager.py`), shallowly embedded in Lean 4.

Conventions of the embedding:
* Python strings are Lean `String`s; the Python string operations used by the
  code (`in`, `strip()`, `startswith`, `replace`) are re-implemented on
  `List Char` with structural recursion so that concrete runs reduce inside
  the kernel.  `strip()` is modelled for ASCII whitespace, which covers every
  input appearing in the development.
* Machine time (`time.time()`) is an `Int` supplied by the caller; event
  timestamps, which no property depends on, are elided from event records.
* Python object identity for `DeviceInfo` records is modelled by an explicit
  heap: `store : List DeviceInfo` is the arena of allocated records and a
  dict holds indices (references) into it, so that in-place mutation and
  shallow `dict.copy()` behave exactly as in Python.
* Fallible external calls are `Except` values supplied as parameters.
-/

namespace AutoGLM

/-! ## Python string primitives -/

/-- Is `c` an ASCII whitespace character (as stripped by Python `str.strip`)? -/
def isPySpace (c : Char) : Bool :=
  decide (c = ' ') || decide (c = '\t') || decide (c = '\n') || decide (c = '\r') ||
  decide (c = '\x0b') || decide (c = '\x0c')

/-- Python `str.strip()` on the underlying character list. -/
def pyStrip (s : String) : String :=
  ⟨((s.data.dropWhile isPySpace).reverse.dropWhile isPySpace).reverse⟩

/-- Does `l` start with the character list `p`? -/
def startsWithChars : List Char → List Char → Bool
  | [], _ => true
  | _ :: _, [] => false
  | p :: ps, c :: cs => decide (p = c) && startsWithChars ps cs

/-- Does `l` contain `pat` as a contiguous sublist? -/
def containsChars (pat : List Char) : List Char → Bool
  | [] => pat.isEmpty
  | c :: cs => startsWithChars pat (c :: cs) || containsChars pat cs

/-- Python `pat in s` substring test. -/
def strContains (s pat : String) : Bool :=
  containsChars pat.data s.data

/-- Python `s.startswith(pre)`. -/
def pyStartsWith (s pre : String) : Bool :=
  startsWithChars pre.data s.data

/-- Fuel-indexed worker for `pyReplace`; the fuel bounds the remaining input
length, keeping the recursion structural (kernel-reducible). -/
def replaceAux (pat repl : List Char) : Nat → List Char → List Char
  | _, [] => []
  | 0, l => l
  | fuel + 1, c :: cs =>
    if startsWithChars pat (c :: cs) then
      repl ++ replaceAux pat repl fuel ((c :: cs).drop pat.length)
    else
      c :: replaceAux pat repl fuel cs

/-- Python `s.replace(pat, repl)` for a non-empty `pat` (the only use in the
source passes the literal `"Parsing action:"`). -/
def pyReplace (s pat repl : String) : String :=
  if pat.data.isEmpty then s
  else ⟨replaceAux pat.data repl.data s.data.length s.data⟩

/-- Python `"\n".join(lines)`. -/
def joinNL : List String → String
  | [] => ""
  | [x] => x
  | x :: y :: rest => x ++ "\n" ++ joinNL (y :: rest)

/-! ## `agent_wrapper.py`: event records -/

/-- The `type` strings of the event dicts produced by
`AgentWrapper.run_task_async` and `AgentWrapper._parse_agent_output`. -/
inductive EventType where
  | start | thinking | performance | action | takeover
  | success | error | stop | unknown
deriving DecidableEq, Repr

/-- One progress-event dict `{type, message, timestamp}`; the timestamp
(`time.time()`), on which no claim depends, is elided. -/
structure TaskEvent where
  type : EventType
  message : String
deriving DecidableEq, Repr

/-! ## `_parse_agent_output` -/

/-- The values taken by the local variable `current_section`
("thinking" / "performance" / "action"; `Option` supplies Python's `None`). -/
inductive SectionKind where
  | thinking | performance | action
deriving DecidableEq, Repr

/-- The parser's loop state: `current_section` and `section_content`. -/
structure ParserState where
  currentSection : Option SectionKind
  sectionContent : List String
deriving DecidableEq, Repr

def thinkingMarkerS : String := "💭 思考过程:"
def perfMarkerS : String := "⏱️  性能指标:"
def actionMarkerS : String := "🎯 执行动作:"
def parsingActionS : String := "Parsing action:"
def takeoverMarkerS : String := "Press Enter after completing manual operation"

/-- The `thinking` event built when a buffered thinking section is flushed. -/
def mkThinkingEvent (content : List String) : TaskEvent :=
  ⟨EventType.thinking, "💭 **思考过程**\n" ++ joinNL content⟩

/-- The `performance` event built when a buffered performance section is
flushed. -/
def mkPerfEvent (content : List String) : TaskEvent :=
  ⟨EventType.performance, "⏱️ **性能指标**\n" ++ joinNL content⟩

/-- The `action` event built from a `Parsing action:` line (after strip). -/
def mkActionEvent (line : String) : TaskEvent :=
  ⟨EventType.action, "🎯 **执行动作**: " ++ pyStrip (pyReplace line parsingActionS "")⟩

/-- The `takeover` event. -/
def takeoverEvent : TaskEvent :=
  ⟨EventType.takeover, "🤝 **人工接管**: 需要手动完成操作"⟩

/-- One iteration of the `for line in output_lines` loop of
`_parse_agent_output`: returns the next state and the events pushed onto
`step_queue` by that iteration, in order. -/
def processLine (st : ParserState) (rawLine : String) : ParserState × List TaskEvent :=
  let line := pyStrip rawLine
  if line = "" then (st, [])
  else if strContains line thinkingMarkerS then
    (⟨some SectionKind.thinking, []⟩, [])
  else if strContains line perfMarkerS then
    (⟨some SectionKind.performance, []⟩,
      if st.currentSection = some SectionKind.thinking ∧ st.sectionContent ≠ [] then
        [mkThinkingEvent st.sectionContent]
      else [])
  else if strContains line actionMarkerS then
    (⟨some SectionKind.action, []⟩,
      if st.currentSection = some SectionKind.performance ∧ st.sectionContent ≠ [] then
        [mkPerfEvent st.sectionContent]
      else [])
  else if strContains line parsingActionS then
    (st, [mkActionEvent line])
  else if strContains line takeoverMarkerS then
    (st, [takeoverEvent])
  else if st.currentSection.isSome ∧ pyStartsWith line "--" then
    (st, [])
  else if st.currentSection.isSome then
    ({ st with sectionContent := st.sectionContent ++ [line] }, [])
  else (st, [])

/-- Folding step threading the parser state and the accumulated event list. -/
def parseStep (acc : ParserState × List TaskEvent) (l : String) :
    ParserState × List TaskEvent :=
  ((processLine acc.1 l).1, acc.2 ++ (processLine acc.1 l).2)

/-- The main loop of `_parse_agent_output`: final state plus all events
emitted during the loop, in emission order. -/
def parseLines (lines : List String) : ParserState × List TaskEvent :=
  lines.foldl parseStep (⟨none, []⟩, [])

/-- The trailing flush of `_parse_agent_output` (处理最后一个段落). -/
def finalFlush (st : ParserState) : List TaskEvent :=
  if st.currentSection = some SectionKind.thinking ∧ st.sectionContent ≠ [] then
    [mkThinkingEvent st.sectionContent]
  else if st.currentSection = some SectionKind.performance ∧ st.sectionContent ≠ [] then
    [mkPerfEvent st.sectionContent]
  else []

/-- `AgentWrapper._parse_agent_output`: the full ordered sequence of events
pushed onto `step_queue` for the given captured output lines. -/
def parse_agent_output (lines : List String) : List TaskEvent :=
  (parseLines lines).2 ++ finalFlush (parseLines lines).1

/-! ## `run_task_async`

The driving generator is embedded as a total function over one cooperative
schedule: the worker thread either returns a result (`Except.ok`) or raises
(`Except.error`); `stopSet` is the value of `self._stop_event` observed at the
post-drain check (line `if self._stop_event.is_set()`); when the loop exits
because of a stop request the events drained so far form a prefix
(`drainedCount`) of the worker's parsed output, and when it exits because the
worker thread died the queue has been filled completely and is drained whole. -/

/-- The body of `run_agent_with_steps`: events pushed to `step_queue`, then the
contents of `result_queue` and `error_queue` when the thread dies.  On an agent
exception nothing was parsed (parsing follows the `run` call) and the error
queue holds the failure text. -/
def workerRun (runOutcome : Except String String) (captured : List String) :
    List TaskEvent × Option String × Option String :=
  match runOutcome with
  | Except.ok r => (parse_agent_output captured, some r, none)
  | Except.error e => ([], none, some ("任务执行失败: " ++ e))

/-- Lines 155-172 of `agent_wrapper.py`: the single terminal event, chosen
from the stop flag and the two one-shot queues. -/
def terminalEvent (stopSet : Bool) (resultQ errQ : Option String) : TaskEvent :=
  if stopSet then ⟨EventType.stop, "⏹️ 任务已停止"⟩
  else
    match resultQ with
    | some r => ⟨EventType.success, "✅ 任务完成: " ++ r⟩
    | none =>
      match errQ with
      | some e => ⟨EventType.error, "❌ " ++ e⟩
      | none => ⟨EventType.unknown, "❓ 任务状态未知"⟩

/-- `AgentWrapper.run_task_async`: the full ordered event sequence yielded to
the caller.  `agentExists` is `self.agent is not None` on entry; `createOk` and
`createMsg` describe `_create_agent`'s outcome when it is invoked. -/
def run_task_async (agentExists createOk : Bool) (createMsg : String)
    (runOutcome : Except String String) (captured : List String)
    (stopSet : Bool) (drainedCount : Nat) : List TaskEvent :=
  if !agentExists && !createOk then
    [⟨EventType.error, "❌ " ++ createMsg⟩]
  else
    let w := workerRun runOutcome captured
    let drained := if stopSet then w.1.take drainedCount else w.1
    ⟨EventType.start, "🚀 开始执行任务..."⟩ :: drained ++
      [terminalEvent stopSet w.2.1 w.2.2]

/-! ## `device_manager.py` -/

/-- `DeviceStatus` enumeration. -/
inductive DeviceStatus where
  | connected | disconnected | unauthorized | offline | unknown
deriving DecidableEq, Repr

/-- The `.value` string of a `DeviceStatus` member. -/
def statusValue : DeviceStatus → String
  | DeviceStatus.connected => "connected"
  | DeviceStatus.disconnected => "disconnected"
  | DeviceStatus.unauthorized => "unauthorized"
  | DeviceStatus.offline => "offline"
  | DeviceStatus.unknown => "unknown"

/-- The `DeviceInfo` dataclass. -/
structure DeviceInfo where
  device_id : String
  status : DeviceStatus
  device_type : String
  model : Option String := none
  last_check : Option Int := none
  error_message : Option String := none
deriving DecidableEq, Repr

/-- One record returned by the external `DeviceFactory.list_devices()` call:
a device id, a native status string, and an optional model. -/
structure RawDevice where
  device_id : String
  status : String
  model : Option String
deriving DecidableEq, Repr

/-- The external `phone_agent.device_factory.DeviceType` enumeration. -/
inductive DeviceType where
  | ADB | HDC | IOS
deriving DecidableEq, Repr

/-- Lines 85-93 of `device_manager.py`: choose the factory type from the
`device_type` string, falling back to ADB on anything unrecognized. -/
def factoryTypeOf (device_type : String) : DeviceType :=
  if device_type = "adb" then DeviceType.ADB
  else if device_type = "hdc" then DeviceType.HDC
  else if device_type = "ios" then DeviceType.IOS
  else DeviceType.ADB

/-- Lines 101-109: map a native status string to `DeviceStatus`. -/
def statusOfRaw (s : String) : DeviceStatus :=
  if s = "device" then DeviceStatus.connected
  else if s = "unauthorized" then DeviceStatus.unauthorized
  else if s = "offline" then DeviceStatus.offline
  else DeviceStatus.unknown

/-- Lines 111-117: the fresh `DeviceInfo` record created for one raw device. -/
def mkDeviceInfo (device_type : String) (now : Int) (d : RawDevice) : DeviceInfo :=
  { device_id := d.device_id
    status := statusOfRaw d.status
    device_type := device_type
    model := d.model
    last_check := some now
    error_message := none }

/-! A Python dict mapping device ids to record references is an
insertion-ordered association list; `dictInsert` is `d[k] = v` (overwrite
keeps the original position) and `dictLookup` is `d.get(k)`. -/

/-- Python `d[k] = v` on an insertion-ordered association list. -/
def dictInsert (cache : List (String × Nat)) (k : String) (v : Nat) :
    List (String × Nat) :=
  if cache.any (fun p => p.1 = k) then
    cache.map (fun p => if p.1 = k then (k, v) else p)
  else cache ++ [(k, v)]

/-- Python `d.get(k)` on an insertion-ordered association list. -/
def dictLookup (cache : List (String × Nat)) (id : String) : Option Nat :=
  (cache.find? (fun p => decide (p.1 = id))).map (fun p => p.2)

/-- The `for device in raw_devices` loop: each iteration allocates a fresh
`DeviceInfo` record (at arena index `base`, `base + 1`, ...) and binds
`new_devices[device.device_id]` to it. -/
def buildNewDict (base : Nat) : List RawDevice → List (String × Nat) →
    List (String × Nat)
  | [], acc => acc
  | d :: rest, acc => buildNewDict (base + 1) rest (dictInsert acc d.device_id base)

/-- The in-place mutation of line 128-129: `status = DISCONNECTED`,
`last_check = current_time`, other fields untouched. -/
def mutateD (now : Int) (d : DeviceInfo) : DeviceInfo :=
  { d with status := DeviceStatus.disconnected, last_check := some now }

/-- One iteration of the line 126-129 loop: if the cache entry's id is absent
from the fresh key set, overwrite its record in the arena with the mutated
version. -/
def markStep (now : Int) (newKeys : List String) (st : List DeviceInfo)
    (p : String × Nat) : List DeviceInfo :=
  if p.1 ∈ newKeys then st
  else
    match st[p.2]? with
    | some info => st.set p.2 (mutateD now info)
    | none => st

/-- Lines 126-129: for every cached id absent from the fresh key set, mutate
the cached record in place to `disconnected` with `last_check` updated. -/
def markDisconnected (now : Int) (newKeys : List String)
    (cache : List (String × Nat)) (store : List DeviceInfo) : List DeviceInfo :=
  cache.foldl (markStep now newKeys) store

/-- The mutable state of a `DeviceManager` instance, with the record arena
(`store`) making Python object identity explicit.  Each registered status
callback is a pair of an identifier and a flag saying whether invoking it
raises an exception. -/
structure DeviceManagerState where
  store : List DeviceInfo
  devices_cache : List (String × Nat)
  last_scan_time : Int
  scan_interval : Int
  status_callbacks : List (Nat × Bool)
deriving DecidableEq, Repr

/-- What one `scan_devices` call returns and does: the returned shallow copy
of the cache mapping, the successor state, whether the external listing call
was made, whether `_notify_status_change` ran, and which callbacks it invoked
(in `device_manager.py` lines 61-65 an exception raised by a callback is
caught, so every registered callback is invoked). -/
structure ScanResult where
  snapshot : List (String × Nat)
  state : DeviceManagerState
  externalCalled : Bool
  notified : Bool
  invoked : List Nat
deriving Repr

/-- The keys of the `new_devices` dict built for the fresh raw listing (in
Python, `set(new_devices.keys())` up to the set view taken later). -/
def freshKeys (base : Nat) (raw : List RawDevice) : List String :=
  (buildNewDict base raw []).map (fun p => p.1)

/-- Line 133, `self._devices_cache.update(new_devices)`: fold the fresh dict's
bindings into the cache. -/
def updatedCache (s : DeviceManagerState) (raw : List RawDevice) :
    List (String × Nat) :=
  (buildNewDict s.store.length raw []).foldl
    (fun c p => dictInsert c p.1 p.2) s.devices_cache

/-- The record arena after one refreshing scan: the loop's fresh allocations
are appended, then the lines 126-129 loop mutates retained-but-absent records
in place. -/
def updatedStore (s : DeviceManagerState) (now : Int) (device_type : String)
    (raw : List RawDevice) : List DeviceInfo :=
  markDisconnected now (freshKeys s.store.length raw) s.devices_cache
    (s.store ++ raw.map (mkDeviceInfo device_type now))

/-- Line 137, `old_devices != new_device_ids`: do the pre-scan cache key set
and the fresh key set differ (as sets)? -/
def scanChanged (s : DeviceManagerState) (raw : List RawDevice) : Bool :=
  decide ((s.devices_cache.map (fun p => p.1)).toFinset ≠
    (freshKeys s.store.length raw).toFinset)

/-- The whole refresh branch (lines 98-140) of `scan_devices` once the
external listing has returned `raw`. -/
def scanFresh (s : DeviceManagerState) (now : Int) (device_type : String)
    (raw : List RawDevice) : ScanResult :=
  ⟨updatedCache s raw,
    { store := updatedStore s now device_type raw
      devices_cache := updatedCache s raw
      last_scan_time := now
      scan_interval := s.scan_interval
      status_callbacks := s.status_callbacks },
    true, scanChanged s raw,
    if scanChanged s raw then s.status_callbacks.map (fun c => c.1) else []⟩

/-- `DeviceManager.scan_devices`.  `now` is `time.time()`; `listDevices` is
the external `DeviceFactory(factory_type).list_devices()` capability, indexed
by the chosen factory type, returning a raw device list or raising. -/
def scan_devices (s : DeviceManagerState) (now : Int) (device_type : String)
    (force_refresh : Bool)
    (listDevices : DeviceType → Except Unit (List RawDevice)) : ScanResult :=
  if force_refresh = false ∧ now - s.last_scan_time < s.scan_interval then
    ⟨s.devices_cache, s, false, false, []⟩
  else
    match listDevices (factoryTypeOf device_type) with
    | Except.error _ => ⟨s.devices_cache, s, true, false, []⟩
    | Except.ok raw => scanFresh s now device_type raw

/-- Dereference a returned snapshot mapping against a record arena (reading a
`DeviceInfo` attribute through a shallow-copied dict hits the live object). -/
def readSnap (store : List DeviceInfo) (snap : List (String × Nat))
    (id : String) : Option DeviceInfo :=
  match dictLookup snap id with
  | some ref => store[ref]?
  | none => none

/-- Read one device record of the manager's own cache. -/
def readDevice (s : DeviceManagerState) (id : String) : Option DeviceInfo :=
  readSnap s.store s.devices_cache id

/-- The materialized id-to-record view of a scan result's snapshot (what the
Python caller sees as a `Dict[str, DeviceInfo]` of live objects). -/
def deviceDict (r : ScanResult) : List (String × DeviceInfo) :=
  r.snapshot.filterMap (fun p => (r.state.store[p.2]?).map (fun d => (p.1, d)))

/-- `DeviceManager.check_device_connection`.  Always force-refreshes, then
triages: specified id first, otherwise connected > unauthorized > offline >
generic, exactly as in lines 179-216. -/
def check_device_connection (s : DeviceManagerState) (now : Int)
    (device_id : Option String) (device_type : String)
    (listDevices : DeviceType → Except Unit (List RawDevice)) :
    Bool × String × Option DeviceInfo :=
  let r := scan_devices s now device_type true listDevices
  let devices := deviceDict r
  if devices.isEmpty then (false, "未检测到任何设备", none)
  else
    match device_id with
    | some id =>
      match (devices.find? (fun p => decide (p.1 = id))).map (fun p => p.2) with
      | none => (false, "设备 " ++ id ++ " 未连接", none)
      | some d =>
        if d.status = DeviceStatus.connected then
          (true, "设备 " ++ id ++ " 已连接", some d)
        else if d.status = DeviceStatus.unauthorized then
          (false, "设备 " ++ id ++ " 未授权，请在设备上允许USB调试", some d)
        else if d.status = DeviceStatus.offline then
          (false, "设备 " ++ id ++ " 离线", some d)
        else
          (false, "设备 " ++ id ++ " 状态未知: " ++ statusValue d.status, some d)
    | none =>
      let vals := devices.map (fun p => p.2)
      match vals.filter (fun d => decide (d.status = DeviceStatus.connected)) with
      | d :: rest =>
        (true, "检测到 " ++ toString (rest.length + 1) ++ " 个可用设备，使用: " ++
          d.device_id, some d)
      | [] =>
        match vals.filter (fun d => decide (d.status = DeviceStatus.unauthorized)) with
        | _u :: urest =>
          (false, "检测到 " ++ toString (urest.length + 1) ++
            " 个未授权设备，请在设备上允许USB调试", none)
        | [] =>
          match vals.filter (fun d => decide (d.status = DeviceStatus.offline)) with
          | _o :: orest =>
            (false, "检测到 " ++ toString (orest.length + 1) ++ " 个离线设备", none)
          | [] =>
            (false, "检测到 " ++ toString devices.length ++ " 个设备，但都不可用", none)

/-! ## Helper lemmas about the output parser -/

/-- Does the event carry one of the four kinds the parser can produce? -/
def isParserKind (e : TaskEvent) : Bool :=
  decide (e.type = EventType.thinking) || decide (e.type = EventType.performance) ||
  decide (e.type = EventType.action) || decide (e.type = EventType.takeover)

/-- Is the event neither a `success` nor an `error` event? -/
def notSuccessError (e : TaskEvent) : Bool :=
  !(decide (e.type = EventType.success) || decide (e.type = EventType.error))

lemma isParserKind_notSuccessError (e : TaskEvent) (h : isParserKind e = true) :
    notSuccessError e = true := by
  obtain ⟨t, m⟩ := e
  cases t <;> simp_all [isParserKind, notSuccessError]

lemma processLine_kinds (st : ParserState) (l : String) :
    ∀ e ∈ (processLine st l).2, isParserKind e = true := by
  unfold processLine
  dsimp only
  repeat' split
  all_goals intro e he
  all_goals simp only [List.mem_singleton, List.not_mem_nil] at he
  all_goals first
    | exact he.elim
    | (subst he; rfl)

lemma finalFlush_kinds (st : ParserState) :
    ∀ e ∈ finalFlush st, isParserKind e = true := by
  unfold finalFlush
  repeat' split
  all_goals intro e he
  all_goals simp only [List.mem_singleton, List.not_mem_nil] at he
  all_goals first
    | exact he.elim
    | (subst he; rfl)

lemma parseFold_kinds (lines : List String) :
    ∀ (st : ParserState) (acc : List TaskEvent),
      (∀ e ∈ acc, isParserKind e = true) →
      ∀ e ∈ (lines.foldl parseStep (st, acc)).2, isParserKind e = true := by
  induction lines with
  | nil => intro st acc hacc e he; exact hacc e he
  | cons l rest ih =>
    intro st acc hacc e he
    rw [List.foldl_cons] at he
    refine ih _ _ ?_ e he
    intro e' he'
    rcases List.mem_append.mp he' with h | h
    · exact hacc e' h
    · exact processLine_kinds st l e' h

lemma parse_agent_output_kinds (lines : List String) :
    ∀ e ∈ parse_agent_output lines, isParserKind e = true := by
  intro e he
  rcases List.mem_append.mp he with h | h
  · exact parseFold_kinds lines _ _ (by intro e' h'; exact absurd h' (List.not_mem_nil e')) e h
  · exact finalFlush_kinds _ e h

lemma workerRun_kinds (runOutcome : Except String String) (captured : List String) :
    ∀ e ∈ (workerRun runOutcome captured).1, isParserKind e = true := by
  cases runOutcome with
  | ok r => exact fun e he => parse_agent_output_kinds captured e he
  | error msg => intro e' he'; exact absurd he' (List.not_mem_nil e')

/-! ## Claims C1-C4 -/

/-- C1: in every run of `run_task_async` that reaches the worker phase (the
agent existed or was constructed successfully) and in which the stop flag set
by `stop_task()` is observed at the post-drain check, the event sequence
yielded to the caller ends with the `stop` event, and no `success` or `error`
event occurs anywhere in the sequence (in particular not after the `stop`),
whatever result or exception the detached worker later produces. -/
theorem C1_stop_terminates_with_stop (agentExists createOk : Bool) (createMsg : String)
    (runOutcome : Except String String) (captured : List String) (drainedCount : Nat)
    (hstarted : agentExists = true ∨ createOk = true) :
    (run_task_async agentExists createOk createMsg runOutcome captured true
        drainedCount).getLast? = some ⟨EventType.stop, "⏹️ 任务已停止"⟩ ∧
    (run_task_async agentExists createOk createMsg runOutcome captured true
        drainedCount).all notSuccessError = true := by
  have hcond : (!agentExists && !createOk) = false := by
    rcases hstarted with h | h <;> subst h <;> simp
  have hkinds := workerRun_kinds runOutcome captured
  unfold run_task_async
  rw [hcond]
  simp only [Bool.false_eq_true, if_false]
  constructor
  · rw [List.getLast?_concat]; rfl
  · rw [List.all_eq_true]
    intro e he
    rcases List.mem_append.mp he with he1 | he4
    · rcases List.mem_cons.mp he1 with rfl | he3
      · rfl
      · exact isParserKind_notSuccessError e
          (hkinds e (List.take_subset drainedCount _ (by simpa using he3)))
    · rw [List.mem_singleton] at he4; subst he4; rfl

/-- C1 witness: a concrete stopped run. -/
theorem C1_witness :
    (run_task_async true true "" (Except.ok "done") ["💭 思考过程:", "hello"] true
        5).getLast? = some ⟨EventType.stop, "⏹️ 任务已停止"⟩ ∧
    (run_task_async true true "" (Except.ok "done") ["💭 思考过程:", "hello"] true
        5).all notSuccessError = true :=
  C1_stop_terminates_with_stop true true "" (Except.ok "done")
    ["💭 思考过程:", "hello"] 5 (Or.inl rfl)

/-- C2: every run of `run_task_async` ends with an event whose kind is
`success`, `error` or `stop`: the creation-failure path ends with `error`, a
stopped run ends with `stop`, and otherwise the worker has filled exactly one
of the two one-shot queues (it puts a result on normal return and an error
description on any exception), so the `unknown` branch is unreachable.  The
embedding is a total function, so no exception type reaches the caller. -/
theorem C2_terminal_kind (agentExists createOk : Bool) (createMsg : String)
    (runOutcome : Except String String) (captured : List String)
    (stopSet : Bool) (drainedCount : Nat) :
    ∃ e, (run_task_async agentExists createOk createMsg runOutcome captured stopSet
        drainedCount).getLast? = some e ∧
      (e.type = EventType.success ∨ e.type = EventType.error ∨
        e.type = EventType.stop) := by
  unfold run_task_async
  by_cases h : (!agentExists && !createOk) = true
  · rw [if_pos h]
    exact ⟨_, rfl, Or.inr (Or.inl rfl)⟩
  · rw [if_neg h]
    dsimp only
    refine ⟨terminalEvent stopSet (workerRun runOutcome captured).2.1
        (workerRun runOutcome captured).2.2, ?_, ?_⟩
    · rw [List.getLast?_concat]
    · cases stopSet with
      | true => exact Or.inr (Or.inr rfl)
      | false =>
        cases runOutcome with
        | ok r => exact Or.inl rfl
        | error msg => exact Or.inr (Or.inl rfl)

/-- C3 counterexample: after the lines `"⏱️  性能指标:"`, `"perf data"` the
parser has an open performance section with buffered content, yet feeding the
three-line input that continues with the thinking-start marker produces NO
event at all: the buffered performance section is silently discarded, contrary
to the claim that it is flushed as a `performance` event before the switch. -/
theorem C3_counterexample :
    (parseLines ["⏱️  性能指标:", "perf data"]).1 =
      ⟨some SectionKind.performance, ["perf data"]⟩ ∧
    parse_agent_output ["⏱️  性能指标:", "perf data", "💭 思考过程: x"] = [] := by
  constructor <;> decide

/-- C3 amended: a complete characterization of every event the parser can
emit, from which both halves of the amended claim follow by inspection.
Per line, first match wins: a blank line does nothing; a thinking-marker line
switches to `thinking` and clears the accumulator WITHOUT emitting anything
(an open performance section is discarded); a performance-marker line is the
ONLY line kind that flushes a buffered thinking section; an action-marker
line is the ONLY line kind that flushes a buffered performance section; a
`Parsing action:` line emits one `action` event and a takeover line one
`takeover` event, both leaving the section state untouched; every other line
emits nothing.  At end of input an open thinking (resp. performance) section
with content is flushed as one final event, and nothing is appended
otherwise. -/
theorem C3_amended_flush (st : ParserState) (line : String) (lines : List String) :
    (pyStrip line = "" → processLine st line = (st, [])) ∧
    (pyStrip line ≠ "" → strContains (pyStrip line) thinkingMarkerS = true →
      processLine st line = (⟨some SectionKind.thinking, []⟩, [])) ∧
    (pyStrip line ≠ "" → strContains (pyStrip line) thinkingMarkerS = false →
      strContains (pyStrip line) perfMarkerS = true →
      processLine st line = (⟨some SectionKind.performance, []⟩,
        if st.currentSection = some SectionKind.thinking ∧ st.sectionContent ≠ []
        then [mkThinkingEvent st.sectionContent] else [])) ∧
    (pyStrip line ≠ "" → strContains (pyStrip line) thinkingMarkerS = false →
      strContains (pyStrip line) perfMarkerS = false →
      strContains (pyStrip line) actionMarkerS = true →
      processLine st line = (⟨some SectionKind.action, []⟩,
        if st.currentSection = some SectionKind.performance ∧ st.sectionContent ≠ []
        then [mkPerfEvent st.sectionContent] else [])) ∧
    (pyStrip line ≠ "" → strContains (pyStrip line) thinkingMarkerS = false →
      strContains (pyStrip line) perfMarkerS = false →
      strContains (pyStrip line) actionMarkerS = false →
      strContains (pyStrip line) parsingActionS = true →
      processLine st line = (st, [mkActionEvent (pyStrip line)])) ∧
    (pyStrip line ≠ "" → strContains (pyStrip line) thinkingMarkerS = false →
      strContains (pyStrip line) perfMarkerS = false →
      strContains (pyStrip line) actionMarkerS = false →
      strContains (pyStrip line) parsingActionS = false →
      strContains (pyStrip line) takeoverMarkerS = true →
      processLine st line = (st, [takeoverEvent])) ∧
    (pyStrip line ≠ "" → strContains (pyStrip line) thinkingMarkerS = false →
      strContains (pyStrip line) perfMarkerS = false →
      strContains (pyStrip line) actionMarkerS = false →
      strContains (pyStrip line) parsingActionS = false →
      strContains (pyStrip line) takeoverMarkerS = false →
      (processLine st line).2 = []) ∧
    ((parseLines lines).1.currentSection = some SectionKind.thinking →
      (parseLines lines).1.sectionContent ≠ [] →
      parse_agent_output lines =
        (parseLines lines).2 ++ [mkThinkingEvent (parseLines lines).1.sectionContent]) ∧
    ((parseLines lines).1.currentSection = some SectionKind.performance →
      (parseLines lines).1.sectionContent ≠ [] →
      parse_agent_output lines =
        (parseLines lines).2 ++ [mkPerfEvent (parseLines lines).1.sectionContent]) ∧
    (((parseLines lines).1.currentSection ≠ some SectionKind.thinking ∧
        (parseLines lines).1.currentSection ≠ some SectionKind.performance) ∨
      (parseLines lines).1.sectionContent = [] →
      parse_agent_output lines = (parseLines lines).2) := by
  refine ⟨?_, ?_, ?_, ?_, ?_, ?_, ?_, ?_, ?_, ?_⟩
  · intro h0
    unfold processLine
    dsimp only
    rw [if_pos h0]
  · intro h0 h1
    unfold processLine
    dsimp only
    rw [if_neg h0, if_pos h1]
  · intro h0 h1 h2
    unfold processLine
    dsimp only
    rw [if_neg h0, if_neg (by simp [h1]), if_pos h2]
  · intro h0 h1 h2 h3
    unfold processLine
    dsimp only
    rw [if_neg h0, if_neg (by simp [h1]), if_neg (by simp [h2]), if_pos h3]
  · intro h0 h1 h2 h3 h4
    unfold processLine
    dsimp only
    rw [if_neg h0, if_neg (by simp [h1]), if_neg (by simp [h2]),
      if_neg (by simp [h3]), if_pos h4]
  · intro h0 h1 h2 h3 h4 h5
    unfold processLine
    dsimp only
    rw [if_neg h0, if_neg (by simp [h1]), if_neg (by simp [h2]),
      if_neg (by simp [h3]), if_neg (by simp [h4]), if_pos h5]
  · intro h0 h1 h2 h3 h4 h5
    unfold processLine
    dsimp only
    rw [if_neg h0, if_neg (by simp [h1]), if_neg (by simp [h2]),
      if_neg (by simp [h3]), if_neg (by simp [h4]), if_neg (by simp [h5])]
    repeat' split
    all_goals rfl
  · intro h1 h2
    unfold parse_agent_output finalFlush
    rw [if_pos ⟨h1, h2⟩]
  · intro h1 h2
    unfold parse_agent_output finalFlush
    rw [if_neg (by rw [h1]; rintro ⟨hc, -⟩; cases hc), if_pos ⟨h1, h2⟩]
  · intro h
    unfold parse_agent_output finalFlush
    rcases h with ⟨hn1, hn2⟩ | hnc
    · rw [if_neg (fun hc => hn1 hc.1), if_neg (fun hc => hn2 hc.1),
        List.append_nil]
    · rw [if_neg (fun hc => hc.2 hnc), if_neg (fun hc => hc.2 hnc),
        List.append_nil]

/-- C3 witness: concrete instances of the amended transition facts — the
discarding thinking-marker transition, a thinking flush on a performance
marker, a performance flush on an action marker, both end-of-input flushes,
and a no-flush end of input. -/
theorem C3_witness :
    processLine ⟨some SectionKind.performance, ["x"]⟩ "💭 思考过程:" =
      (⟨some SectionKind.thinking, []⟩, []) ∧
    processLine ⟨some SectionKind.thinking, ["t"]⟩ "⏱️  性能指标:" =
      (⟨some SectionKind.performance, []⟩, [mkThinkingEvent ["t"]]) ∧
    processLine ⟨some SectionKind.performance, ["y"]⟩ "🎯 执行动作: tap" =
      (⟨some SectionKind.action, []⟩, [mkPerfEvent ["y"]]) ∧
    (processLine ⟨some SectionKind.performance, ["z"]⟩ "plain content").2 = [] ∧
    parse_agent_output ["💭 思考过程:", "th"] =
      (parseLines ["💭 思考过程:", "th"]).2 ++ [mkThinkingEvent ["th"]] ∧
    parse_agent_output ["⏱️  性能指标:", "data"] =
      (parseLines ["⏱️  性能指标:", "data"]).2 ++ [mkPerfEvent ["data"]] ∧
    parse_agent_output ["🎯 执行动作:"] = (parseLines ["🎯 执行动作:"]).2 :=
  ⟨(C3_amended_flush ⟨some SectionKind.performance, ["x"]⟩ "💭 思考过程:" []).2.1
      (by decide) (by decide),
   ((C3_amended_flush ⟨some SectionKind.thinking, ["t"]⟩ "⏱️  性能指标:" []).2.2.1
      (by decide) (by decide) (by decide)).trans (by decide),
   ((C3_amended_flush ⟨some SectionKind.performance, ["y"]⟩ "🎯 执行动作: tap"
      []).2.2.2.1 (by decide) (by decide) (by decide) (by decide)).trans (by decide),
   (C3_amended_flush ⟨some SectionKind.performance, ["z"]⟩ "plain content"
      []).2.2.2.2.2.2.1 (by decide) (by decide) (by decide) (by decide)
      (by decide) (by decide),
   ((C3_amended_flush ⟨none, []⟩ "" ["💭 思考过程:", "th"]).2.2.2.2.2.2.2.1
      (by decide) (by decide)).trans (by decide),
   ((C3_amended_flush ⟨none, []⟩ "" ["⏱️  性能指标:", "data"]).2.2.2.2.2.2.2.2.1
      (by decide) (by decide)).trans (by decide),
   (C3_amended_flush ⟨none, []⟩ "" ["🎯 执行动作:"]).2.2.2.2.2.2.2.2.2
      (Or.inr (by decide))⟩

/-- C4 counterexample: on the spec's three-line example the single `thinking`
event does NOT contain the marker line's payload `"step one"`: the code resets
the accumulator on the marker line instead of buffering its payload. -/
theorem C4_counterexample :
    parse_agent_output
        ["💭 思考过程: step one", "continuing thought", "⏱️  性能指标: step one"] =
      [⟨EventType.thinking, "💭 **思考过程**\ncontinuing thought"⟩] ∧
    strContains "💭 **思考过程**\ncontinuing thought" "step one" = false := by
  constructor <;> decide

/-- C4 amended: the three-line example produces exactly one `thinking` event
whose section text is only `"continuing thought"` (the marker line's payload
is dropped), after which the parser is in the `performance` state. -/
theorem C4_amended_example :
    parse_agent_output
        ["💭 思考过程: step one", "continuing thought", "⏱️  性能指标: step one"] =
      [⟨EventType.thinking, "💭 **思考过程**\ncontinuing thought"⟩] ∧
    (parseLines
        ["💭 思考过程: step one", "continuing thought", "⏱️  性能指标: step one"]).1 =
      ⟨some SectionKind.performance, []⟩ := by
  constructor <;> decide

/-! ## Helper lemmas about the device manager -/

lemma mutateD_idem (now : Int) (d : DeviceInfo) :
    mutateD now (mutateD now d) = mutateD now d := rfl

lemma map_mutateD_mutateD (now : Int) (o : Option DeviceInfo) :
    (o.map (mutateD now)).map (mutateD now) = o.map (mutateD now) := by
  cases o <;> rfl

lemma markStep_getElem? (now : Int) (keys : List String) (st : List DeviceInfo)
    (p : String × Nat) (i : Nat) :
    (markStep now keys st p)[i]? = st[i]? ∨
    (markStep now keys st p)[i]? = (st[i]?).map (mutateD now) := by
  unfold markStep
  split
  · exact Or.inl rfl
  · split
    next info hinfo =>
      by_cases hip : p.2 = i
      · subst hip
        right
        rw [List.getElem?_set_self (List.getElem?_eq_some.mp hinfo).1, hinfo]
        rfl
      · exact Or.inl (List.getElem?_set_ne hip)
    next => exact Or.inl rfl

lemma markFold_getElem? (now : Int) (keys : List String)
    (cache : List (String × Nat)) :
    ∀ (store : List DeviceInfo) (i : Nat),
      (List.foldl (markStep now keys) store cache)[i]? = store[i]? ∨
      (List.foldl (markStep now keys) store cache)[i]? =
        (store[i]?).map (mutateD now) := by
  induction cache with
  | nil => intro store i; exact Or.inl rfl
  | cons p rest ih =>
    intro store i
    rw [List.foldl_cons]
    have h2 := markStep_getElem? now keys store p i
    have h := ih (markStep now keys store p) i
    rcases h with h | h <;> rcases h2 with h2 | h2
    · exact Or.inl (h.trans h2)
    · exact Or.inr (h.trans h2)
    · exact Or.inr (h.trans (by rw [h2]))
    · exact Or.inr (h.trans (by rw [h2, map_mutateD_mutateD]))

lemma markFold_fixed (now : Int) (keys : List String) (cache : List (String × Nat)) :
    ∀ (store : List DeviceInfo) (ref : Nat) (w : DeviceInfo),
      store[ref]? = some w → mutateD now w = w →
      (List.foldl (markStep now keys) store cache)[ref]? = some w := by
  induction cache with
  | nil => intro store ref w hw _; exact hw
  | cons p rest ih =>
    intro store ref w hw hfix
    rw [List.foldl_cons]
    apply ih _ _ _ _ hfix
    unfold markStep
    split
    · exact hw
    · split
      next info hinfo =>
        by_cases hip : p.2 = ref
        · subst hip
          obtain rfl : info = w := Option.some.inj (hinfo.symm.trans hw)
          rw [List.getElem?_set_self (List.getElem?_eq_some.mp hinfo).1, hfix]
        · rw [List.getElem?_set_ne hip]; exact hw
      next => exact hw

lemma markStep_hit (now : Int) (keys : List String) (st : List DeviceInfo)
    (id : String) (ref : Nat) (orig : DeviceInfo)
    (hkey : id ∉ keys)
    (h : st[ref]? = some orig ∨ st[ref]? = some (mutateD now orig)) :
    (markStep now keys st (id, ref))[ref]? = some (mutateD now orig) := by
  unfold markStep
  dsimp only
  rw [if_neg hkey]
  rcases h with h | h
  · rw [h]
    show (st.set ref (mutateD now orig))[ref]? = some (mutateD now orig)
    exact List.getElem?_set_self (List.getElem?_eq_some.mp h).1
  · rw [h]
    show (st.set ref (mutateD now (mutateD now orig)))[ref]? =
      some (mutateD now orig)
    rw [mutateD_idem]
    exact List.getElem?_set_self (List.getElem?_eq_some.mp h).1

lemma markDisconnected_of_mem (now : Int) (keys : List String)
    (cache : List (String × Nat)) (store : List DeviceInfo)
    (id : String) (ref : Nat) (orig : DeviceInfo)
    (hmem : (id, ref) ∈ cache) (hkey : id ∉ keys)
    (horig : store[ref]? = some orig) :
    (markDisconnected now keys cache store)[ref]? = some (mutateD now orig) := by
  obtain ⟨l1, l2, rfl⟩ := List.append_of_mem hmem
  unfold markDisconnected
  rw [List.foldl_append, List.foldl_cons]
  have h1 := markFold_getElem? now keys l1 store ref
  rw [horig] at h1
  have hstep := markStep_hit now keys (List.foldl (markStep now keys) store l1)
    id ref orig hkey h1
  exact markFold_fixed now keys l2 _ ref _ hstep (mutateD_idem now orig)

lemma markStep_length (now : Int) (keys : List String) (st : List DeviceInfo)
    (p : String × Nat) : (markStep now keys st p).length = st.length := by
  unfold markStep
  split
  · rfl
  · split
    next info _ => exact List.length_set st p.2 (mutateD now info)
    next => rfl

lemma markFold_length (now : Int) (keys : List String) (cache : List (String × Nat)) :
    ∀ store : List DeviceInfo,
      (List.foldl (markStep now keys) store cache).length = store.length := by
  induction cache with
  | nil => intro store; rfl
  | cons p rest ih =>
    intro store
    rw [List.foldl_cons, ih, markStep_length]

/-! Dict lemmas. -/

lemma find?_insertMap_ne (c : List (String × Nat)) (k : String) (v : Nat)
    (id : String) (h : k ≠ id) :
    (c.map (fun p => if p.1 = k then (k, v) else p)).find?
        (fun p => decide (p.1 = id)) =
      c.find? (fun p => decide (p.1 = id)) := by
  induction c with
  | nil => rfl
  | cons p rest ih =>
    rw [List.map_cons]
    by_cases hp : p.1 = k
    · rw [if_pos hp, List.find?_cons_of_neg _ (by simp [h]),
        List.find?_cons_of_neg _ (by simp [hp, h])]
      exact ih
    · rw [if_neg hp]
      by_cases hid : p.1 = id
      · rw [List.find?_cons_of_pos _ (by simp [hid]),
          List.find?_cons_of_pos _ (by simp [hid])]
      · rw [List.find?_cons_of_neg _ (by simp [hid]),
          List.find?_cons_of_neg _ (by simp [hid])]
        exact ih

lemma dictLookup_insert_ne (c : List (String × Nat)) (k : String) (v : Nat)
    (id : String) (h : k ≠ id) :
    dictLookup (dictInsert c k v) id = dictLookup c id := by
  unfold dictInsert dictLookup
  split
  · rw [find?_insertMap_ne c k v id h]
  · rw [List.find?_append]
    have hone : List.find? (fun p => decide (p.1 = id)) [(k, v)] = none := by
      simp [h]
    rw [hone]
    cases List.find? (fun p => decide (p.1 = id)) c <;> rfl

lemma find?_insertMap_self (c : List (String × Nat)) (k : String) (v : Nat) :
    c.any (fun p => decide (p.1 = k)) = true →
    (c.map (fun p => if p.1 = k then (k, v) else p)).find?
        (fun p => decide (p.1 = k)) = some (k, v) := by
  induction c with
  | nil => intro h; simp at h
  | cons p rest ih =>
    intro hany
    rw [List.map_cons]
    by_cases hp : p.1 = k
    · rw [if_pos hp, List.find?_cons_of_pos _ (by simp)]
    · rw [if_neg hp, List.find?_cons_of_neg _ (by simp [hp])]
      exact ih (by simpa [hp] using hany)

lemma dictLookup_insert_self (c : List (String × Nat)) (k : String) (v : Nat) :
    dictLookup (dictInsert c k v) k = some v := by
  unfold dictInsert
  split
  next hany =>
    unfold dictLookup
    rw [find?_insertMap_self c k v hany]
    rfl
  next hany =>
    unfold dictLookup
    rw [List.find?_append]
    have hnone : List.find? (fun p => decide (p.1 = k)) c = none := by
      rw [List.find?_eq_none]
      intro x hx hpx
      exact hany (List.any_eq_true.mpr ⟨x, hx, hpx⟩)
    rw [hnone]
    simp

lemma dictFold_lookup_ne (entries : List (String × Nat)) :
    ∀ (c : List (String × Nat)) (id : String), (∀ p ∈ entries, p.1 ≠ id) →
      dictLookup (entries.foldl (fun c p => dictInsert c p.1 p.2) c) id =
        dictLookup c id := by
  induction entries with
  | nil => intro c id _; rfl
  | cons p rest ih =>
    intro c id h
    rw [List.foldl_cons,
      ih _ id (fun q hq => h q (List.mem_cons_of_mem p hq))]
    exact dictLookup_insert_ne c p.1 p.2 id (h p (List.mem_cons_self p rest))

lemma dictFold_lookup_isSome (entries : List (String × Nat)) :
    ∀ (c : List (String × Nat)) (id : String), (dictLookup c id).isSome = true →
      (dictLookup (entries.foldl (fun c p => dictInsert c p.1 p.2) c)
        id).isSome = true := by
  induction entries with
  | nil => intro c id h; exact h
  | cons p rest ih =>
    intro c id h
    rw [List.foldl_cons]
    apply ih
    by_cases hp : p.1 = id
    · subst hp; rw [dictLookup_insert_self]; rfl
    · rw [dictLookup_insert_ne c p.1 p.2 id hp]; exact h

lemma insertMap_keys (c : List (String × Nat)) (k : String) (v : Nat) :
    (c.map (fun p => if p.1 = k then (k, v) else p)).map (fun p => p.1) =
      c.map (fun p => p.1) := by
  induction c with
  | nil => rfl
  | cons p rest ih =>
    by_cases hp : p.1 = k
    · simp only [List.map_cons, if_pos hp, ih]
      rw [hp]
    · simp only [List.map_cons, if_neg hp, ih]

lemma dictInsert_keys_toFinset (c : List (String × Nat)) (k : String) (v : Nat) :
    ((dictInsert c k v).map (fun p => p.1)).toFinset =
      insert k (c.map (fun p => p.1)).toFinset := by
  unfold dictInsert
  split
  next hany =>
    rw [insertMap_keys]
    have hk : k ∈ (c.map (fun p => p.1)).toFinset := by
      rw [List.mem_toFinset]
      obtain ⟨x, hx, hpx⟩ := List.any_eq_true.mp hany
      rw [List.mem_map]
      exact ⟨x, hx, by simpa using hpx⟩
    rw [Finset.insert_eq_self.mpr hk]
  next =>
    rw [List.map_append, List.toFinset_append]
    ext x
    simp [or_comm]

lemma buildNewDict_keys_toFinset (raw : List RawDevice) :
    ∀ (base : Nat) (acc : List (String × Nat)),
      ((buildNewDict base raw acc).map (fun p => p.1)).toFinset =
        (acc.map (fun p => p.1)).toFinset ∪
          (raw.map (fun d => d.device_id)).toFinset := by
  induction raw with
  | nil =>
    intro base acc
    simp [buildNewDict]
  | cons d rest ih =>
    intro base acc
    rw [show buildNewDict base (d :: rest) acc =
        buildNewDict (base + 1) rest (dictInsert acc d.device_id base) from rfl,
      ih, dictInsert_keys_toFinset]
    ext x
    simp [or_comm, or_left_comm]

lemma buildNewDict_key_mem (base : Nat) (raw : List RawDevice) (p : String × Nat)
    (hp : p ∈ buildNewDict base raw []) :
    p.1 ∈ raw.map (fun d => d.device_id) := by
  have h1 : p.1 ∈ ((buildNewDict base raw []).map (fun q => q.1)).toFinset := by
    rw [List.mem_toFinset]
    exact List.mem_map_of_mem _ hp
  rw [buildNewDict_keys_toFinset raw base []] at h1
  simpa using h1

/-! Path lemmas for `scan_devices`. -/

lemma scan_snapshot_eq (s : DeviceManagerState) (now : Int) (device_type : String)
    (force_refresh : Bool) (listDevices : DeviceType → Except Unit (List RawDevice)) :
    (scan_devices s now device_type force_refresh listDevices).snapshot =
      (scan_devices s now device_type force_refresh listDevices).state.devices_cache := by
  unfold scan_devices
  split
  · rfl
  · split <;> rfl

lemma scan_interval_eq (s : DeviceManagerState) (now : Int) (device_type : String)
    (force_refresh : Bool) (listDevices : DeviceType → Except Unit (List RawDevice)) :
    (scan_devices s now device_type force_refresh listDevices).state.scan_interval =
      s.scan_interval := by
  unfold scan_devices
  split
  · rfl
  · split <;> rfl

lemma scan_callbacks_eq (s : DeviceManagerState) (now : Int) (device_type : String)
    (force_refresh : Bool) (listDevices : DeviceType → Except Unit (List RawDevice)) :
    (scan_devices s now device_type force_refresh listDevices).state.status_callbacks =
      s.status_callbacks := by
  unfold scan_devices
  split
  · rfl
  · split <;> rfl

lemma scan_ttl (s : DeviceManagerState) (now : Int) (dt : String)
    (listDevices : DeviceType → Except Unit (List RawDevice))
    (h : now - s.last_scan_time < s.scan_interval) :
    scan_devices s now dt false listDevices = ⟨s.devices_cache, s, false, false, []⟩ := by
  unfold scan_devices
  rw [if_pos ⟨rfl, h⟩]

lemma scan_refresh_eq (s : DeviceManagerState) (now : Int) (dt : String)
    (force : Bool) (listDevices : DeviceType → Except Unit (List RawDevice))
    (raw : List RawDevice)
    (hre : ¬(force = false ∧ now - s.last_scan_time < s.scan_interval))
    (hlist : listDevices (factoryTypeOf dt) = Except.ok raw) :
    scan_devices s now dt force listDevices = scanFresh s now dt raw := by
  unfold scan_devices
  rw [if_neg hre, hlist]

lemma freshKeys_toFinset (base : Nat) (raw : List RawDevice) :
    (freshKeys base raw).toFinset = (raw.map (fun d => d.device_id)).toFinset := by
  unfold freshKeys
  rw [buildNewDict_keys_toFinset raw base []]
  simp

/-! ## Claims C5-C9 -/

/-- C5 counterexample: start from an empty cache, scan `["A"]`, then scan `[]`
twice.  Between the second and third scans nothing changes (both fresh
listings are empty and the cache key set stays `&#123;"A"&#125;` throughout), yet the
third scan still notifies and invokes the registered callback, because the
code compares the accumulated cache key set (which retains the disconnected
"A" forever) with the fresh key set. -/
theorem C5_counterexample :
    (scan_devices (scan_devices (scan_devices ⟨[], [], -100, 5, [(0, false)]⟩
        0 "adb" true (fun _ => Except.ok [⟨"A", "device", none⟩])).state
        10 "adb" true (fun _ => Except.ok [])).state
        20 "adb" true (fun _ => Except.ok [])).notified = true ∧
    (scan_devices (scan_devices (scan_devices ⟨[], [], -100, 5, [(0, false)]⟩
        0 "adb" true (fun _ => Except.ok [⟨"A", "device", none⟩])).state
        10 "adb" true (fun _ => Except.ok [])).state
        20 "adb" true (fun _ => Except.ok [])).invoked = [0] ∧
    (scan_devices (scan_devices ⟨[], [], -100, 5, [(0, false)]⟩
        0 "adb" true (fun _ => Except.ok [⟨"A", "device", none⟩])).state
        10 "adb" true (fun _ => Except.ok [])).state.devices_cache =
      (scan_devices (scan_devices (scan_devices ⟨[], [], -100, 5, [(0, false)]⟩
        0 "adb" true (fun _ => Except.ok [⟨"A", "device", none⟩])).state
        10 "adb" true (fun _ => Except.ok [])).state
        20 "adb" true (fun _ => Except.ok [])).state.devices_cache := by
  exact ⟨by decide, by decide, by decide⟩

/-- C5 amended: on a refreshing scan whose listing succeeds, the callbacks
are notified if and only if the PRE-SCAN CACHE key set differs from the fresh
listing's key set (not "the keys changed between consecutive scans": a
retained disconnected device keeps the two sets different forever); when
notification happens every registered callback is invoked (each is wrapped in
try/except, so a raising callback cannot stop the others); and the cache
update, snapshot and notification decision are independent of which callbacks
raise. -/
theorem C5_notify_condition (s : DeviceManagerState) (now : Int) (dt : String)
    (force : Bool) (listDevices : DeviceType → Except Unit (List RawDevice))
    (raw : List RawDevice)
    (hre : ¬(force = false ∧ now - s.last_scan_time < s.scan_interval))
    (hlist : listDevices (factoryTypeOf dt) = Except.ok raw) :
    ((scan_devices s now dt force listDevices).notified = true ↔
      (s.devices_cache.map (fun p => p.1)).toFinset ≠
        (raw.map (fun d => d.device_id)).toFinset) ∧
    ((scan_devices s now dt force listDevices).invoked =
      if (scan_devices s now dt force listDevices).notified
      then s.status_callbacks.map (fun c => c.1) else []) ∧
    (∀ cbs2 : List (Nat × Bool),
      scan_devices { s with status_callbacks := cbs2 } now dt force listDevices =
        { scan_devices s now dt force listDevices with
            state := { (scan_devices s now dt force listDevices).state with
              status_callbacks := cbs2 }
            invoked := if (scan_devices s now dt force listDevices).notified
              then cbs2.map (fun c => c.1) else [] }) := by
  rw [scan_refresh_eq s now dt force listDevices raw hre hlist]
  refine ⟨?_, rfl, ?_⟩
  · show (scanChanged s raw = true ↔ _)
    unfold scanChanged
    rw [decide_eq_true_iff, freshKeys_toFinset]
  · intro cbs2
    rw [scan_refresh_eq { s with status_callbacks := cbs2 } now dt force
      listDevices raw hre hlist]
    rfl

/-- C5 witness: a concrete refreshing scan from an empty cache; the key set
changes, so the notification fires. -/
theorem C5_witness :
    (scan_devices ⟨[], [], -10, 5, [(0, true), (1, false)]⟩ 0 "adb" true
        (fun _ => Except.ok [⟨"A", "device", none⟩])).notified = true ↔
      ((([] : List (String × Nat)).map (fun p => p.1)).toFinset ≠
        (([⟨"A", "device", none⟩] : List RawDevice).map
          (fun d => d.device_id)).toFinset) :=
  (C5_notify_condition ⟨[], [], -10, 5, [(0, true), (1, false)]⟩ 0 "adb" true
    (fun _ => Except.ok [⟨"A", "device", none⟩]) [⟨"A", "device", none⟩]
    (by simp) rfl).1

/-- C6: two consecutive `scan_devices` calls with `force_refresh = false`
where the second call happens strictly within the scan-interval window of the
recorded last scan: the second call short-circuits (no external listing call,
so at most one external call is made in total), returns the identical
snapshot, and leaves the state untouched. -/
theorem C6_ttl_short_circuit (s : DeviceManagerState) (t1 t2 : Int)
    (dt1 dt2 : String) (l1 l2 : DeviceType → Except Unit (List RawDevice))
    (h : t2 - (scan_devices s t1 dt1 false l1).state.last_scan_time <
      s.scan_interval) :
    (scan_devices (scan_devices s t1 dt1 false l1).state t2 dt2 false
      l2).externalCalled = false ∧
    (scan_devices (scan_devices s t1 dt1 false l1).state t2 dt2 false
      l2).snapshot = (scan_devices s t1 dt1 false l1).snapshot ∧
    (scan_devices (scan_devices s t1 dt1 false l1).state t2 dt2 false
      l2).state = (scan_devices s t1 dt1 false l1).state ∧
    (if (scan_devices s t1 dt1 false l1).externalCalled then 1 else 0) +
      (if (scan_devices (scan_devices s t1 dt1 false l1).state t2 dt2 false
        l2).externalCalled then 1 else 0) ≤ 1 := by
  have hint := scan_interval_eq s t1 dt1 false l1
  have h2 := scan_ttl (scan_devices s t1 dt1 false l1).state t2 dt2 l2
    (by rw [hint]; exact h)
  refine ⟨by rw [h2], ?_, by rw [h2], ?_⟩
  · rw [h2]
    exact (scan_snapshot_eq s t1 dt1 false l1).symm
  · rw [h2]
    cases (scan_devices s t1 dt1 false l1).externalCalled <;> simp

/-- C6 witness: first call refreshes (interval expired), second call 3 time
units later short-circuits. -/
theorem C6_witness :
    (scan_devices (scan_devices ⟨[], [], -10, 5, []⟩ 0 "adb" false
      (fun _ => Except.ok [⟨"A", "device", none⟩])).state 3 "adb" false
      (fun _ => Except.ok [])).externalCalled = false ∧
    (scan_devices (scan_devices ⟨[], [], -10, 5, []⟩ 0 "adb" false
      (fun _ => Except.ok [⟨"A", "device", none⟩])).state 3 "adb" false
      (fun _ => Except.ok [])).snapshot =
      (scan_devices ⟨[], [], -10, 5, []⟩ 0 "adb" false
        (fun _ => Except.ok [⟨"A", "device", none⟩])).snapshot ∧
    (scan_devices (scan_devices ⟨[], [], -10, 5, []⟩ 0 "adb" false
      (fun _ => Except.ok [⟨"A", "device", none⟩])).state 3 "adb" false
      (fun _ => Except.ok [])).state =
      (scan_devices ⟨[], [], -10, 5, []⟩ 0 "adb" false
        (fun _ => Except.ok [⟨"A", "device", none⟩])).state ∧
    (if (scan_devices ⟨[], [], -10, 5, []⟩ 0 "adb" false
        (fun _ => Except.ok [⟨"A", "device", none⟩])).externalCalled
      then 1 else 0) +
      (if (scan_devices (scan_devices ⟨[], [], -10, 5, []⟩ 0 "adb" false
        (fun _ => Except.ok [⟨"A", "device", none⟩])).state 3 "adb" false
        (fun _ => Except.ok [])).externalCalled then 1 else 0) ≤ 1 :=
  C6_ttl_short_circuit ⟨[], [], -10, 5, []⟩ 0 3 "adb" "adb"
    (fun _ => Except.ok [⟨"A", "device", none⟩]) (fun _ => Except.ok [])
    (by decide)

/-- C7: a device cached before a refreshing scan and absent from that scan's
fresh listing stays in the cache with its record mutated to `disconnected`
and `last_check := now`; and (second conjunct) NO `scan_devices` call, on any
path, ever removes a cache binding, so the key set grows monotonically. -/
theorem C7_retention_monotone (s : DeviceManagerState) (now : Int) (dt : String)
    (force : Bool) (listDevices : DeviceType → Except Unit (List RawDevice))
    (raw : List RawDevice) (id : String) (info : DeviceInfo)
    (hre : ¬(force = false ∧ now - s.last_scan_time < s.scan_interval))
    (hlist : listDevices (factoryTypeOf dt) = Except.ok raw)
    (hid : readDevice s id = some info)
    (habsent : id ∉ raw.map (fun d => d.device_id)) :
    readDevice (scan_devices s now dt force listDevices).state id =
      some { info with status := DeviceStatus.disconnected,
                       last_check := some now } ∧
    (∀ (s' : DeviceManagerState) (now' : Int) (dt' : String) (force' : Bool)
        (listDevices' : DeviceType → Except Unit (List RawDevice)) (id' : String),
      (dictLookup s'.devices_cache id').isSome = true →
      (dictLookup (scan_devices s' now' dt' force'
        listDevices').state.devices_cache id').isSome = true) := by
  constructor
  · rw [scan_refresh_eq s now dt force listDevices raw hre hlist]
    have hkeymem : id ∉ freshKeys s.store.length raw := by
      intro hmem2
      exact habsent (List.mem_toFinset.mp
        (freshKeys_toFinset s.store.length raw ▸ List.mem_toFinset.mpr hmem2))
    have hkeys : ∀ p ∈ buildNewDict s.store.length raw [], p.1 ≠ id := by
      intro p hp hpe
      exact habsent (hpe ▸ buildNewDict_key_mem s.store.length raw p hp)
    unfold readDevice readSnap at hid ⊢
    rcases hdl : dictLookup s.devices_cache id with _ | ref
    · rw [hdl] at hid; cases hid
    rw [hdl] at hid
    -- hid : s.store[ref]? = some info
    have hmem : (id, ref) ∈ s.devices_cache := by
      unfold dictLookup at hdl
      rcases hf : List.find? (fun p => decide (p.1 = id)) s.devices_cache with _ | p
      · rw [hf] at hdl; cases hdl
      · rw [hf] at hdl
        have hp1 : p.1 = id := by simpa using List.find?_some hf
        have hp2 : p.2 = ref := Option.some.inj hdl
        have : p = (id, ref) := Prod.ext hp1 hp2
        exact this ▸ List.mem_of_find?_eq_some hf
    show (match dictLookup (scanFresh s now dt raw).state.devices_cache id with
      | some r => (scanFresh s now dt raw).state.store[r]?
      | none => none) = _
    have hlook : dictLookup (scanFresh s now dt raw).state.devices_cache id =
        some ref := by
      show dictLookup (updatedCache s raw) id = some ref
      unfold updatedCache
      rw [dictFold_lookup_ne _ _ _ hkeys]
      exact hdl
    rw [hlook]
    show (updatedStore s now dt raw)[ref]? = _
    have hstore1 : (s.store ++ raw.map (mkDeviceInfo dt now))[ref]? = some info := by
      rw [List.getElem?_append]
      rw [if_pos (List.getElem?_eq_some.mp hid).1]
      exact hid
    exact markDisconnected_of_mem now _ _ _ id ref info hmem hkeymem hstore1
  · intro s' now' dt' force' ld' id' hsome
    unfold scan_devices
    split
    · exact hsome
    · split
      · exact hsome
      · show (dictLookup (updatedCache s' _) id').isSome = true
        unfold updatedCache
        exact dictFold_lookup_isSome _ _ _ hsome

/-- C7 witness: a cache holding "A" scanned against a fresh listing
containing only "B". -/
theorem C7_witness :
    readDevice (scan_devices
      ⟨[⟨"A", DeviceStatus.connected, "adb", none, some 0, none⟩], [("A", 0)],
        0, 5, []⟩ 10 "adb" true
      (fun _ => Except.ok [⟨"B", "device", none⟩])).state "A" =
      some ⟨"A", DeviceStatus.disconnected, "adb", none, some 10, none⟩ :=
  (C7_retention_monotone
    ⟨[⟨"A", DeviceStatus.connected, "adb", none, some 0, none⟩], [("A", 0)],
      0, 5, []⟩ 10 "adb" true (fun _ => Except.ok [⟨"B", "device", none⟩])
    [⟨"B", "device", none⟩] "A"
    ⟨"A", DeviceStatus.connected, "adb", none, some 0, none⟩
    (by simp) rfl (by decide) (by decide)).1

/-- C8: with no device id requested, when the scan yields no `connected`
device but at least one `unauthorized` one, `check_device_connection` returns
the unauthorized-count failure message — the `offline` branch (and the generic
one) are not consulted, implementing the triage priority
connected > unauthorized > offline > generic. -/
theorem C8_triage_priority (s : DeviceManagerState) (now : Int) (dt : String)
    (listDevices : DeviceType → Except Unit (List RawDevice))
    (hconn : ((deviceDict (scan_devices s now dt true listDevices)).map
      (fun p => p.2)).filter
        (fun d => decide (d.status = DeviceStatus.connected)) = [])
    (hunauth : ((deviceDict (scan_devices s now dt true listDevices)).map
      (fun p => p.2)).filter
        (fun d => decide (d.status = DeviceStatus.unauthorized)) ≠ []) :
    check_device_connection s now none dt listDevices =
      (false, "检测到 " ++
        toString (((deviceDict (scan_devices s now dt true listDevices)).map
          (fun p => p.2)).filter
            (fun d => decide (d.status = DeviceStatus.unauthorized))).length ++
        " 个未授权设备，请在设备上允许USB调试", none) := by
  unfold check_device_connection
  dsimp only
  obtain ⟨u, urest, hcons⟩ := List.exists_cons_of_ne_nil hunauth
  have hvals : (deviceDict (scan_devices s now dt true listDevices)).map
      (fun p => p.2) ≠ [] := by
    intro hnil
    rw [hnil] at hunauth
    simp at hunauth
  have hdev : ¬((deviceDict (scan_devices s now dt true listDevices)).isEmpty
      = true) := by
    rw [List.isEmpty_iff]
    intro hnil
    exact hvals (by rw [hnil]; rfl)
  rw [if_neg hdev, hconn, hcons]
  simp

/-- C8 witness: one unauthorized and one offline device, no connected one:
the failure message reports the unauthorized count, not the offline one. -/
theorem C8_witness :
    check_device_connection ⟨[], [], -100, 5, []⟩ 0 none "adb"
      (fun _ => Except.ok
        [⟨"U", "unauthorized", none⟩, ⟨"O", "offline", none⟩]) =
      (false, "检测到 1 个未授权设备，请在设备上允许USB调试", none) :=
  (C8_triage_priority ⟨[], [], -100, 5, []⟩ 0 "adb"
    (fun _ => Except.ok [⟨"U", "unauthorized", none⟩, ⟨"O", "offline", none⟩])
    (by decide) (by decide)).trans (by decide)

lemma updatedStore_getElem? (s : DeviceManagerState) (now : Int) (dt : String)
    (raw : List RawDevice) (i : Nat) (v : DeviceInfo)
    (hv : s.store[i]? = some v) :
    (updatedStore s now dt raw)[i]? = some v ∨
    (updatedStore s now dt raw)[i]? = some (mutateD now v) := by
  unfold updatedStore markDisconnected
  have h1 : (s.store ++ raw.map (mkDeviceInfo dt now))[i]? = some v := by
    rw [List.getElem?_append, if_pos (List.getElem?_eq_some.mp hv).1]
    exact hv
  rcases markFold_getElem? now (freshKeys s.store.length raw) s.devices_cache
    (s.store ++ raw.map (mkDeviceInfo dt now)) i with h | h
  · exact Or.inl (h.trans h1)
  · right
    rw [h, h1]
    rfl

/-- C9 counterexample: the snapshot returned by the first scan shows device
"A" as `connected`; after a second scan in which "A" is absent, reading the
SAME first snapshot (against the current arena, i.e. through the shared
record objects of Python's shallow `dict.copy()`) shows `disconnected`: the
in-place transition is visible through the previously returned snapshot. -/
theorem C9_counterexample :
    (readSnap (scan_devices ⟨[], [], -100, 5, []⟩ 0 "adb" true
        (fun _ => Except.ok [⟨"A", "device", none⟩])).state.store
      (scan_devices ⟨[], [], -100, 5, []⟩ 0 "adb" true
        (fun _ => Except.ok [⟨"A", "device", none⟩])).snapshot "A").map
      DeviceInfo.status = some DeviceStatus.connected ∧
    (readSnap (scan_devices (scan_devices ⟨[], [], -100, 5, []⟩ 0 "adb" true
        (fun _ => Except.ok [⟨"A", "device", none⟩])).state 10 "adb" true
        (fun _ => Except.ok [])).state.store
      (scan_devices ⟨[], [], -100, 5, []⟩ 0 "adb" true
        (fun _ => Except.ok [⟨"A", "device", none⟩])).snapshot "A").map
      DeviceInfo.status = some DeviceStatus.disconnected := by
  exact ⟨by decide, by decide⟩

/-- C9 amended: the returned mapping is a shallow copy (later scans never
rebind or remove its keys), but the record objects are shared: a later scan
either leaves a pre-existing record untouched or mutates it in place to
`disconnected` with `last_check` updated — and that mutation IS visible
through previously returned snapshots. -/
theorem C9_amended_records (s : DeviceManagerState) (now : Int) (dt : String)
    (force : Bool) (listDevices : DeviceType → Except Unit (List RawDevice))
    (i : Nat) (v : DeviceInfo) (hv : s.store[i]? = some v) :
    (scan_devices s now dt force listDevices).state.store[i]? = some v ∨
    (scan_devices s now dt force listDevices).state.store[i]? =
      some { v with status := DeviceStatus.disconnected,
                    last_check := some now } := by
  unfold scan_devices
  split
  · exact Or.inl hv
  · split
    · exact Or.inl hv
    · exact updatedStore_getElem? s now dt _ i v hv

/-- C9 witness: the concrete record of the counterexample's first scan is
indeed mutated in place by the second scan. -/
theorem C9_witness :
    (scan_devices ⟨[⟨"A", DeviceStatus.connected, "adb", none, some 0, none⟩],
      [("A", 0)], 0, 5, []⟩ 10 "adb" true
      (fun _ => Except.ok [])).state.store[0]? =
      some ⟨"A", DeviceStatus.connected, "adb", none, some 0, none⟩ ∨
    (scan_devices ⟨[⟨"A", DeviceStatus.connected, "adb", none, some 0, none⟩],
      [("A", 0)], 0, 5, []⟩ 10 "adb" true
      (fun _ => Except.ok [])).state.store[0]? =
      some ⟨"A", DeviceStatus.disconnected, "adb", none, some 10, none⟩ :=
  C9_amended_records ⟨[⟨"A", DeviceStatus.connected, "adb", none, some 0, none⟩],
    [("A", 0)], 0, 5, []⟩ 10 "adb" true (fun _ => Except.ok []) 0
    ⟨"A", DeviceStatus.connected, "adb", none, some 0, none⟩ (by decide)

/-! ## Claim C10 -/

lemma markStep_skip (now : Int) (keys : List String) (st : List DeviceInfo)
    (p : String × Nat) (hc : p.1 ∈ keys) : markStep now keys st p = st := by
  unfold markStep
  rw [if_pos hc]

lemma markStep_none (now : Int) (keys : List String) (st : List DeviceInfo)
    (p : String × Nat) (hc : p.1 ∉ keys) (h : st[p.2]? = none) :
    markStep now keys st p = st := by
  unfold markStep
  rw [if_neg hc, h]

lemma markStep_some (now : Int) (keys : List String) (st : List DeviceInfo)
    (p : String × Nat) (info : DeviceInfo) (hc : p.1 ∉ keys)
    (h : st[p.2]? = some info) :
    markStep now keys st p = st.set p.2 (mutateD now info) := by
  unfold markStep
  rw [if_neg hc, h]

lemma markStep_retype (now : Int) (keys : List String) (dt : String) (n : Nat)
    (p : String × Nat) (st1 st2 : List DeviceInfo)
    (hlow : ∀ i, i < n → st1[i]? = st2[i]?)
    (hhigh : ∀ i, n ≤ i → st1[i]? =
      (st2[i]?).map (fun d => { d with device_type := dt })) :
    (∀ i, i < n → (markStep now keys st1 p)[i]? = (markStep now keys st2 p)[i]?) ∧
    (∀ i, n ≤ i → (markStep now keys st1 p)[i]? =
      ((markStep now keys st2 p)[i]?).map
        (fun d => { d with device_type := dt })) := by
  by_cases hc : p.1 ∈ keys
  · rw [markStep_skip now keys st1 p hc, markStep_skip now keys st2 p hc]
    exact ⟨hlow, hhigh⟩
  · by_cases hn : p.2 < n
    · have heq := hlow p.2 hn
      cases h2 : st2[p.2]? with
      | none =>
        rw [markStep_none now keys st1 p hc (heq.trans h2),
          markStep_none now keys st2 p hc h2]
        exact ⟨hlow, hhigh⟩
      | some info =>
        rw [markStep_some now keys st1 p info hc (heq.trans h2),
          markStep_some now keys st2 p info hc h2]
        constructor
        · intro i hi
          by_cases hip : p.2 = i
          · subst hip
            rw [List.getElem?_set_self
                (List.getElem?_eq_some.mp (heq.trans h2)).1,
              List.getElem?_set_self (List.getElem?_eq_some.mp h2).1]
          · rw [List.getElem?_set_ne hip, List.getElem?_set_ne hip]
            exact hlow i hi
        · intro i hi
          have hip : p.2 ≠ i := by omega
          rw [List.getElem?_set_ne hip, List.getElem?_set_ne hip]
          exact hhigh i hi
    · have hge : n ≤ p.2 := Nat.le_of_not_lt hn
      have heq := hhigh p.2 hge
      cases h2 : st2[p.2]? with
      | none =>
        have h1n : st1[p.2]? = none := by rw [heq, h2]; rfl
        rw [markStep_none now keys st1 p hc h1n,
          markStep_none now keys st2 p hc h2]
        exact ⟨hlow, hhigh⟩
      | some d =>
        have h1s : st1[p.2]? = some { d with device_type := dt } := by
          rw [heq, h2]; rfl
        rw [markStep_some now keys st1 p _ hc h1s,
          markStep_some now keys st2 p d hc h2]
        constructor
        · intro i hi
          have hip : p.2 ≠ i := by omega
          rw [List.getElem?_set_ne hip, List.getElem?_set_ne hip]
          exact hlow i hi
        · intro i hi
          by_cases hip : p.2 = i
          · subst hip
            rw [List.getElem?_set_self (List.getElem?_eq_some.mp h1s).1,
              List.getElem?_set_self (List.getElem?_eq_some.mp h2).1]
            rfl
          · rw [List.getElem?_set_ne hip, List.getElem?_set_ne hip]
            exact hhigh i hi

lemma markFold_retype (now : Int) (keys : List String) (dt : String) (n : Nat)
    (entries : List (String × Nat)) :
    ∀ (st1 st2 : List DeviceInfo),
      (∀ i, i < n → st1[i]? = st2[i]?) →
      (∀ i, n ≤ i → st1[i]? =
        (st2[i]?).map (fun d => { d with device_type := dt })) →
      (∀ i, i < n → (List.foldl (markStep now keys) st1 entries)[i]? =
        (List.foldl (markStep now keys) st2 entries)[i]?) ∧
      (∀ i, n ≤ i → (List.foldl (markStep now keys) st1 entries)[i]? =
        ((List.foldl (markStep now keys) st2 entries)[i]?).map
          (fun d => { d with device_type := dt })) := by
  induction entries with
  | nil => intro st1 st2 hl hh; exact ⟨hl, hh⟩
  | cons p rest ih =>
    intro st1 st2 hl hh
    rw [List.foldl_cons, List.foldl_cons]
    obtain ⟨g1, g2⟩ := markStep_retype now keys dt n p st1 st2 hl hh
    exact ih _ _ g1 g2

lemma factoryTypeOf_fallback (dt : String) (h1 : dt ≠ "adb") (h2 : dt ≠ "hdc")
    (h3 : dt ≠ "ios") : factoryTypeOf dt = DeviceType.ADB := by
  unfold factoryTypeOf
  rw [if_neg h1, if_neg h2, if_neg h3]

/-- C10: for a `device_type` string outside adb/hdc/ios, a scan does not fail
or come back empty: the ADB factory is chosen, exactly the same external call
is made, and every observable of the scan (snapshot, cache, notification,
invoked callbacks, timing) coincides with a `device_type = "adb"` scan; the
only difference is that the freshly allocated records carry the original
unrecognized string in their `device_type` field. -/
theorem C10_unknown_type_fallback (dt : String) (s : DeviceManagerState)
    (now : Int) (force : Bool)
    (listDevices : DeviceType → Except Unit (List RawDevice))
    (h1 : dt ≠ "adb") (h2 : dt ≠ "hdc") (h3 : dt ≠ "ios") :
    (scan_devices s now dt force listDevices).externalCalled =
      (scan_devices s now "adb" force listDevices).externalCalled ∧
    (scan_devices s now dt force listDevices).notified =
      (scan_devices s now "adb" force listDevices).notified ∧
    (scan_devices s now dt force listDevices).invoked =
      (scan_devices s now "adb" force listDevices).invoked ∧
    (scan_devices s now dt force listDevices).snapshot =
      (scan_devices s now "adb" force listDevices).snapshot ∧
    (scan_devices s now dt force listDevices).state.devices_cache =
      (scan_devices s now "adb" force listDevices).state.devices_cache ∧
    (scan_devices s now dt force listDevices).state.last_scan_time =
      (scan_devices s now "adb" force listDevices).state.last_scan_time ∧
    (scan_devices s now dt force listDevices).state.store.length =
      (scan_devices s now "adb" force listDevices).state.store.length ∧
    (∀ i, i < s.store.length →
      (scan_devices s now dt force listDevices).state.store[i]? =
        (scan_devices s now "adb" force listDevices).state.store[i]?) ∧
    (∀ i, s.store.length ≤ i →
      (scan_devices s now dt force listDevices).state.store[i]? =
        ((scan_devices s now "adb" force listDevices).state.store[i]?).map
          (fun d => { d with device_type := dt })) := by
  have hf : factoryTypeOf dt = factoryTypeOf "adb" := by
    rw [factoryTypeOf_fallback dt h1 h2 h3]
    rfl
  by_cases httl : (force = false ∧ now - s.last_scan_time < s.scan_interval)
  · unfold scan_devices
    rw [if_pos httl, if_pos httl]
    refine ⟨rfl, rfl, rfl, rfl, rfl, rfl, rfl, fun i _ => rfl, fun i hi => ?_⟩
    rw [List.getElem?_eq_none hi]
    rfl
  · cases hl : listDevices (factoryTypeOf "adb") with
    | error e =>
      have hl' : listDevices (factoryTypeOf dt) = Except.error e := by
        rw [hf, hl]
      unfold scan_devices
      rw [if_neg httl, if_neg httl, hl, hl']
      refine ⟨rfl, rfl, rfl, rfl, rfl, rfl, rfl, fun i _ => rfl, fun i hi => ?_⟩
      rw [List.getElem?_eq_none hi]
      rfl
    | ok raw =>
      have hl' : listDevices (factoryTypeOf dt) = Except.ok raw := by
        rw [hf, hl]
      rw [scan_refresh_eq s now dt force listDevices raw httl hl',
        scan_refresh_eq s now "adb" force listDevices raw httl hl]
      have hlow : ∀ i, i < s.store.length →
          (s.store ++ raw.map (mkDeviceInfo dt now))[i]? =
          (s.store ++ raw.map (mkDeviceInfo "adb" now))[i]? := by
        intro i hi
        rw [List.getElem?_append, if_pos hi, List.getElem?_append, if_pos hi]
      have hhigh : ∀ i, s.store.length ≤ i →
          (s.store ++ raw.map (mkDeviceInfo dt now))[i]? =
          ((s.store ++ raw.map (mkDeviceInfo "adb" now))[i]?).map
            (fun d => { d with device_type := dt }) := by
        intro i hi
        rw [List.getElem?_append_right hi, List.getElem?_append_right hi,
          List.getElem?_map, List.getElem?_map]
        cases raw[i - s.store.length]? <;> rfl
      obtain ⟨g1, g2⟩ := markFold_retype now (freshKeys s.store.length raw) dt
        s.store.length s.devices_cache _ _ hlow hhigh
      refine ⟨rfl, rfl, rfl, rfl, rfl, rfl, ?_, g1, g2⟩
      show (updatedStore s now dt raw).length = (updatedStore s now "adb" raw).length
      unfold updatedStore markDisconnected
      rw [markFold_length, markFold_length]
      simp

/-- C10 witness: a concrete scan with the unrecognized type "usb". -/
theorem C10_witness :
    (scan_devices ⟨[], [], -100, 5, []⟩ 0 "usb" true
      (fun _ => Except.ok [⟨"A", "device", none⟩])).snapshot =
      (scan_devices ⟨[], [], -100, 5, []⟩ 0 "adb" true
        (fun _ => Except.ok [⟨"A", "device", none⟩])).snapshot ∧
    (scan_devices ⟨[], [], -100, 5, []⟩ 0 "usb" true
      (fun _ => Except.ok [⟨"A", "device", none⟩])).state.store[0]? =
      ((scan_devices ⟨[], [], -100, 5, []⟩ 0 "adb" true
        (fun _ => Except.ok [⟨"A", "device", none⟩])).state.store[0]?).map
        (fun d => { d with device_type := "usb" }) :=
  ⟨(C10_unknown_type_fallback "usb" ⟨[], [], -100, 5, []⟩ 0 true
      (fun _ => Except.ok [⟨"A", "device", none⟩])
      (by decide) (by decide) (by decide)).2.2.2.1,
   (C10_unknown_type_fallback "usb" ⟨[], [], -100, 5, []⟩ 0 true
      (fun _ => Except.ok [⟨"A", "device", none⟩])
      (by decide) (by decide) (by decide)).2.2.2.2.2.2.2.2 0 (by decide)⟩

end AutoGLM
